import Mathlib

/-!
Verification of the DUNE vehicle supervisor (Supervisors/Vehicle/Task.cpp),
the bottom tracker (DUNE/Control/BottomTracker.cpp) and parts of the path
controller (DUNE/Control/PathController.cpp), as shallow embeddings.

Times are modelled as rationals, machine bitmasks as Nat with explicit
bitwise operations, message dispatches as explicit event lists.
-/

set_option maxRecDepth 4096

/-- Bitwise "and-not" on Nat: a AND (NOT b), the effect of the C idiom
`a &= ~b` on an unsigned integer. Encoded as a XOR (a AND b), which agrees
bit by bit. -/
def andNot (a b : Nat) : Nat := a ^^^ (a &&& b)

/-! ## Vehicle supervisor (Supervisors::Vehicle::Task) -/

/-- IMC::VehicleState operation modes (VS_SERVICE, VS_CALIBRATION, VS_ERROR,
VS_MANEUVER, VS_EXTERNAL). The external-control mode is named `extCtl`. -/
inductive OpMode
  | service
  | calibration
  | error
  | maneuver
  | extCtl
deriving DecidableEq, Repr

/-- IMC::VehicleCommand type enumeration. -/
def VC_REQUEST : Nat := 0
def VC_SUCCESS : Nat := 1
def VC_FAILURE : Nat := 2

/-- IMC::VehicleCommand command enumeration, in the order of `c_cmd_desc`. -/
def VC_EXEC_MANEUVER : Nat := 0
def VC_STOP_MANEUVER : Nat := 1
def VC_START_CALIBRATION : Nat := 2
def VC_STOP_CALIBRATION : Nat := 3

/-- Modelled from the spec: control-loop mask bits (CL_PATH, CL_TELEOPERATION,
CL_ALTITUDE, CL_DEPTH, CL_SPEED, CL_NO_OVERRIDE). The IMC message catalog with
the numeric values is external to the repository; only their being distinct
single bits is used. -/
def CL_PATH : Nat := 1
def CL_TELEOPERATION : Nat := 2
def CL_ALTITUDE : Nat := 4
def CL_DEPTH : Nat := 8
def CL_SPEED : Nat := 16
def CL_NO_OVERRIDE : Nat := 32

/-- IMC::VehicleState VFLG_MANEUVER_DONE flag bit. -/
def VFLG_MANEUVER_DONE : Nat := 1

/-- Modelled from the spec: the numeric IMC message id of Teleoperation
(DUNE_IMC_TELEOPERATION); the catalog is external to the repository, only
equality with `maneuver_type` is used. -/
def DUNE_IMC_TELEOPERATION : Nat := 452

/-- PlanControl enumeration values used by the supervisor. -/
def PC_REQUEST : Nat := 0
def PC_START : Nat := 0
def FLG_IGNORE_ERRORS : Nat := 1

/-- Maneuver request timeout `c_man_timeout` (seconds). -/
def c_man_timeout : Rat := 1

/-- The four command description strings `c_cmd_desc` indexed by
`cmd->command` in the trace call of consume(VehicleCommand). -/
def c_cmd_desc : List String :=
  ["maneuver start", "maneuver stop", "calibration start", "calibration stop"]

/-- The fields of IMC::VehicleState kept by the supervisor (m_vs). -/
structure VState where
  op_mode : OpMode
  maneuver_type : Nat
  maneuver_stime : Rat
  maneuver_eta : Nat
  error_ents : String
  error_count : Nat
  flags : Nat
  last_error : String
  last_error_time : Rat
  control_loops : Nat
deriving DecidableEq, Repr

/-- An inline maneuver payload of a VehicleCommand: message id, name and
timestamp of the cloned message. -/
structure ManeuverSpec where
  id : Nat
  name : String
  ts : Rat
deriving DecidableEq, Repr

/-- The supervisor task state: configuration (system id, Safe Entities
parameter) plus the mutable fields m_switch_time, m_in_safe_plan,
m_scope_ref, m_calibration.duration, m_idle.duration and m_vs. -/
structure SupState where
  sysId : Nat
  safe_ents : List String
  switch_time : Rat
  in_safe_plan : Bool
  scope_ref : Rat
  calib_duration : Nat
  idle_duration : Nat
  vs : VState
deriving DecidableEq, Repr

/-- Messages dispatched by the supervisor. -/
inductive SupEvent
  | vcReply (dest destEnt ty cmd rid : Nat) (info : String)
  | stopManeuver
  | idleManeuver (duration : Nat)
  | calibration (duration : Nat)
  | vstate (vs : VState)
  | maneuverMsg (id : Nat) (name : String)
deriving DecidableEq, Repr

/-- nonOverridableLoops(): teleoperation or NO_OVERRIDE bits enabled. -/
def nonOverridableLoops (s : SupState) : Bool :=
  (s.vs.control_loops &&& (CL_TELEOPERATION ||| CL_NO_OVERRIDE)) != 0

/-- teleoperationOn(): the current maneuver is a Teleoperation. -/
def teleoperationOn (s : SupState) : Bool :=
  s.vs.maneuver_type == DUNE_IMC_TELEOPERATION

/-- entityError(): are the entities in error relevant in the current state.
Utils::String::split on "," is modelled with String.splitOn. -/
def entityError (s : SupState) : Bool :=
  if s.vs.error_count ≠ 0 then
    if s.safe_ents.length ≠ 0 ∧ s.in_safe_plan then
      (s.vs.error_ents.splitOn ",").any
        (fun e => s.safe_ents.any (fun f => e == f))
    else true
  else false

/-- changeMode(s, maneuver = 0): the mode-transition helper. When the target
is SERVICE but entityError() holds, redirects to ERROR; entering or staying
in MANEUVER dispatches the (cloned) maneuver; finally disarms the switch
timer and dispatches m_vs. -/
def changeMode (s : SupState) (target : OpMode) (man : Option ManeuverSpec) :
    SupState × List SupEvent :=
  let s :=
    if s.vs.op_mode ≠ target then
      let t := if target = .service ∧ entityError s then OpMode.error else target
      let s := { s with vs := { s.vs with op_mode := t } }
      if s.vs.op_mode ≠ .maneuver then
        { s with vs := { s.vs with
            maneuver_type := 65535, maneuver_stime := -1, maneuver_eta := 65535,
            flags := andNot s.vs.flags VFLG_MANEUVER_DONE } }
      else s
    else s
  let se :=
    if s.vs.op_mode = .maneuver then
      match man with
      | some m =>
        ({ s with vs := { s.vs with
             maneuver_stime := m.ts, maneuver_type := m.id, maneuver_eta := 65535,
             last_error := "", last_error_time := -1,
             flags := andNot s.vs.flags VFLG_MANEUVER_DONE } },
         [SupEvent.maneuverMsg m.id m.name])
      | Option.none => (s, [])
    else (s, [])
  let s := { se.1 with switch_time := -1 }
  (s, se.2 ++ [SupEvent.vstate s.vs])

/-- reset(): stop an ongoing maneuver, leave the safe plan, zero the active
control loops and dispatch the idle maneuver. -/
def reset (s : SupState) : SupState × List SupEvent :=
  let evs := if s.vs.op_mode = .maneuver then [SupEvent.stopManeuver] else []
  let s := { s with in_safe_plan := false,
                    vs := { s.vs with control_loops := 0 } }
  (s, evs ++ [SupEvent.idleManeuver s.idle_duration])

/-- An IMC::VehicleCommand as consumed by the supervisor. -/
structure VCmd where
  src : Nat
  srcEnt : Nat
  type : Nat
  command : Nat
  rid : Nat
  maneuver : Option ManeuverSpec
  calib_time : Nat
deriving DecidableEq, Repr

/-- answer(): build the VehicleCommand reply (m_vc_reply) for a request. -/
def answer (cmd : VCmd) (ty : Nat) (desc : String) : SupEvent :=
  SupEvent.vcReply cmd.src cmd.srcEnt ty cmd.command cmd.rid desc

/-- startCalibration(). -/
def startCalibration (s : SupState) (cmd : VCmd) (now : Rat) :
    SupState × List SupEvent :=
  if s.vs.op_mode = .extCtl then
    (s, [answer cmd VC_FAILURE "cannot calibrate: vehicle is in external mode"])
  else
    let r1 := if s.vs.op_mode = .maneuver then reset s else (s, [])
    let r2 := changeMode r1.1 .calibration Option.none
    let s := { r2.1 with calib_duration := cmd.calib_time }
    let e3 := [SupEvent.calibration s.calib_duration]
    let s := { s with switch_time := now }
    (s, r1.2 ++ r2.2 ++ e3 ++
      [answer cmd VC_SUCCESS
        ("calibrating vehicle for " ++ toString s.calib_duration ++ " seconds")])

/-- stopCalibration(). Note that an incompatible mode is answered with
requestOK (VC_SUCCESS), as in the source. -/
def stopCalibration (s : SupState) (cmd : VCmd) : SupState × List SupEvent :=
  if s.vs.op_mode ≠ .calibration then
    (s, [answer cmd VC_SUCCESS "cannot stop calibration: vehicle is not calibrating"])
  else
    let r := changeMode s .service Option.none
    (r.1, [answer cmd VC_SUCCESS "stopped calibration"] ++ r.2)

/-- startManeuver(). -/
def startManeuver (s : SupState) (cmd : VCmd) : SupState × List SupEvent :=
  match cmd.maneuver with
  | Option.none => (s, [answer cmd VC_FAILURE "no maneuver specified"])
  | some m =>
    if s.vs.op_mode = .extCtl then
      (s, [answer cmd VC_FAILURE (m.name ++ " maneuver cannot be started in current mode")])
    else
      let r := changeMode s .maneuver (some m)
      (r.1, [SupEvent.stopManeuver] ++ r.2 ++
            [answer cmd VC_SUCCESS (m.name ++ " maneuver started")])

/-- stopManeuver() (the VehicleCommand handler). -/
def stopManeuverCmd (s : SupState) (cmd : VCmd) : SupState × List SupEvent :=
  let r :=
    if s.vs.op_mode ≠ .error then
      let r1 := reset s
      if r1.1.vs.op_mode ≠ .extCtl ∨ ¬ nonOverridableLoops r1.1 then
        let r2 := changeMode r1.1 .service Option.none
        (r2.1, r1.2 ++ r2.2)
      else r1
    else (s, [])
  (r.1, r.2 ++ [answer cmd VC_SUCCESS "OK"])

/-- consume(IMC::VehicleCommand). The switch has no default branch: command
values other than 0..3 fall through with no reply. -/
def consumeVehicleCommand (s : SupState) (cmd : VCmd) (now : Rat) :
    SupState × List SupEvent :=
  if cmd.type ≠ VC_REQUEST then (s, [])
  else
    match cmd.command with
    | 0 => startManeuver s cmd
    | 1 => stopManeuverCmd s cmd
    | 2 => startCalibration s cmd now
    | 3 => stopCalibration s cmd
    | _ => (s, [])

/-- onEnabledControlLoops(). -/
def onEnabledControlLoops (s : SupState) : SupState × List SupEvent :=
  match s.vs.op_mode with
  | .service => changeMode s .extCtl Option.none
  | .error =>
      if nonOverridableLoops s then changeMode s .extCtl Option.none
      else reset s
  | _ => (s, [])

/-- onDisabledControlLoops(). -/
def onDisabledControlLoops (s : SupState) : SupState × List SupEvent :=
  if s.vs.op_mode = .extCtl then changeMode s .service Option.none else (s, [])

/-- An IMC::ControlLoops message. -/
structure CLMsg where
  enable : Bool
  mask : Nat
  scope_ref : Rat
deriving DecidableEq, Repr

/-- consume(IMC::ControlLoops): obsolete scopes are ignored, then the mask
is OR-ed in or AND-NOT-ed out, with edge callbacks on all-on / all-off. -/
def consumeControlLoops (s : SupState) (m : CLMsg) : SupState × List SupEvent :=
  if m.scope_ref < s.scope_ref then (s, [])
  else
    let s := { s with scope_ref := m.scope_ref }
    let was := s.vs.control_loops
    if m.enable then
      let s := { s with vs := { s.vs with control_loops := was ||| m.mask } }
      if was = 0 ∧ s.vs.control_loops ≠ 0 then onEnabledControlLoops s
      else (s, [])
    else
      let s := { s with vs := { s.vs with control_loops := andNot was m.mask } }
      if was ≠ 0 ∧ s.vs.control_loops = 0 then onDisabledControlLoops s
      else (s, [])

/-- An IMC::EntityMonitoringState message. -/
structure EMSMsg where
  ccount : Nat
  ecount : Nat
  cnames : String
  enames : String
  last_error : String
  last_error_time : Rat
deriving DecidableEq, Repr

/-- consume(IMC::EntityMonitoringState). `error_count` is a uint8 sum. -/
def consumeEMS (s : SupState) (m : EMSMsg) : SupState × List SupEvent :=
  let s := { s with vs := { s.vs with error_count := (m.ccount + m.ecount) % 256 } }
  let s :=
    if s.vs.error_count ≠ 0 ∧ m.last_error_time > s.vs.last_error_time then
      { s with vs := { s.vs with last_error := m.last_error,
                                 last_error_time := m.last_error_time } }
    else s
  let ents := if m.ccount ≠ 0 then m.cnames else ""
  let ents :=
    if m.ecount ≠ 0 then ents ++ (if m.ccount ≠ 0 then "," else "") ++ m.enames
    else ents
  let s := { s with vs := { s.vs with error_ents := ents } }
  if s.vs.op_mode = .error then
    if s.vs.error_count = 0 then changeMode s .service Option.none else (s, [])
  else if s.vs.op_mode = .extCtl ∨ s.vs.op_mode = .maneuver then
    if entityError s ∧ ¬ nonOverridableLoops s ∧ ¬ teleoperationOn s then
      let r1 := reset s
      let r2 := changeMode r1.1 .error Option.none
      (r2.1, r1.2 ++ r2.2)
    else (s, [])
  else
    if entityError s ∧ s.vs.op_mode ≠ .calibration then
      let r1 := reset s
      let r2 := changeMode r1.1 .error Option.none
      (r2.1, r1.2 ++ r2.2)
    else (s, [])

/-- IMC::ManeuverControlState state enumeration. -/
inductive MCSState
  | executing
  | done
  | mcsError
deriving DecidableEq, Repr

/-- An IMC::ManeuverControlState message. -/
structure MCSMsg where
  src : Nat
  state : MCSState
  eta : Nat
  info : String
  ts : Rat
deriving DecidableEq, Repr

/-- IMC::Factory::getAbbrevFromId, used only to build log strings; the
factory is external to the repository, modelled as decimal printing. -/
def getAbbrevFromId (id : Nat) : String := toString id

/-- consume(IMC::ManeuverControlState). -/
def consumeMCS (s : SupState) (m : MCSMsg) (now : Rat) : SupState × List SupEvent :=
  if m.src ≠ s.sysId then (s, [])
  else if s.vs.op_mode ≠ .maneuver then (s, [])
  else
    match m.state with
    | .executing =>
      if m.eta ≠ s.vs.maneuver_eta then
        let s := { s with vs := { s.vs with maneuver_eta := m.eta } }
        (s, [SupEvent.vstate s.vs])
      else (s, [])
    | .done =>
      let s := { s with vs :=
        { s.vs with maneuver_eta := 0, flags := s.vs.flags ||| VFLG_MANEUVER_DONE } }
      let evs := [SupEvent.vstate s.vs]
      let s := { s with switch_time := now }
      (s, evs)
    | .mcsError =>
      let s := { s with vs := { s.vs with
          last_error := getAbbrevFromId s.vs.maneuver_type ++ " maneuver error: " ++ m.info,
          last_error_time := m.ts } }
      let r1 := changeMode s .service Option.none
      let r2 := reset r1.1
      (r2.1, r1.2 ++ r2.2)

/-- An IMC::PlanControl message (the fields the supervisor reads). -/
structure PCtrlMsg where
  type : Nat
  op : Nat
  flags : Nat
deriving DecidableEq, Repr

/-- consume(IMC::PlanControl). -/
def consumePlanControl (s : SupState) (m : PCtrlMsg) : SupState × List SupEvent :=
  if m.type = PC_REQUEST ∧ m.op = PC_START then
    ({ s with in_safe_plan := (m.flags &&& FLG_IGNORE_ERRORS) != 0 }, [])
  else (s, [])

/-- consume(IMC::Abort). -/
def consumeAbort (s : SupState) (now : Rat) : SupState × List SupEvent :=
  let s := { s with vs := { s.vs with last_error := "got abort request",
                                      last_error_time := now } }
  if s.vs.op_mode ≠ .error then
    let r1 := reset s
    if r1.1.vs.op_mode ≠ .extCtl ∨ ¬ nonOverridableLoops r1.1 then
      let r2 := changeMode r1.1 .service Option.none
      (r2.1, r1.2 ++ r2.2)
    else r1
  else (s, [])

/-- task(): the periodic tick; dispatches m_vs and handles the one-shot
switch timer (calibration duration, maneuver new-reference timeout). -/
def taskTick (s : SupState) (now : Rat) : SupState × List SupEvent :=
  let evs := [SupEvent.vstate s.vs]
  if s.switch_time < 0 then (s, evs)
  else
    let delta := now - s.switch_time
    if s.vs.op_mode = .calibration ∧ delta > (s.calib_duration : Rat) then
      let r := changeMode s .service Option.none
      ({ r.1 with switch_time := -1 }, evs ++ r.2)
    else if s.vs.op_mode = .maneuver ∧ delta > c_man_timeout then
      let r1 := reset s
      let r2 := changeMode r1.1 .service Option.none
      ({ r2.1 with switch_time := -1 }, evs ++ r1.2 ++ r2.2)
    else (s, evs)

/-- The supervisor's input alphabet: the bound consumers plus the periodic
task() tick. Wall-clock reads are supplied with the input. -/
inductive SupInput
  | abort (now : Rat)
  | controlLoops (m : CLMsg)
  | ems (m : EMSMsg)
  | mcs (m : MCSMsg) (now : Rat)
  | planControl (m : PCtrlMsg)
  | vehicleCommand (cmd : VCmd) (now : Rat)
  | tick (now : Rat)
deriving DecidableEq, Repr

/-- One supervisor step: dispatch on the input kind. -/
def step (s : SupState) : SupInput → SupState × List SupEvent
  | .abort now => consumeAbort s now
  | .controlLoops m => consumeControlLoops s m
  | .ems m => consumeEMS s m
  | .mcs m now => consumeMCS s m now
  | .planControl m => consumePlanControl s m
  | .vehicleCommand cmd now => consumeVehicleCommand s cmd now
  | .tick now => taskTick s now

/-- Run the supervisor over a list of inputs, concatenating dispatches. -/
def runSup (s : SupState) : List SupInput → SupState × List SupEvent
  | [] => (s, [])
  | i :: rest =>
    let r1 := step s i
    let r2 := runSup r1.1 rest
    (r2.1, r1.2 ++ r2.2)

/-- setInitialState() plus the constructor initializations. -/
def initState (sysId : Nat) (safe : List String) : SupState :=
  { sysId := sysId, safe_ents := safe, switch_time := -1, in_safe_plan := false,
    scope_ref := 0, calib_duration := 0, idle_duration := 0,
    vs := { op_mode := .service, maneuver_type := 65535, maneuver_stime := -1,
            maneuver_eta := 65535, error_ents := "", error_count := 0, flags := 0,
            last_error := "", last_error_time := -1, control_loops := 0 } }

/-- Project the VehicleCommand replies (type, command, request_id, info) out
of an event list. -/
def replyOf : SupEvent → Option (Nat × Nat × Nat × String)
  | .vcReply _ _ ty cmd rid info => some (ty, cmd, rid, info)
  | _ => Option.none

/-- The guard protecting the `c_cmd_desc[cmd->command]` array read in
consume(IMC::VehicleCommand): only non-REQUEST messages return before the
read; nothing bounds the command field. -/
def cmdDescIndexOK (cmd : VCmd) : Prop :=
  cmd.type ≠ VC_REQUEST ∨ cmd.command < c_cmd_desc.length

instance (cmd : VCmd) : Decidable (cmdDescIndexOK cmd) := by
  unfold cmdDescIndexOK; infer_instance

/-! ## Bottom tracker (DUNE::Control::BottomTracker) -/

/-- IMC z-reference units (Z_NONE, Z_DEPTH, Z_ALTITUDE, Z_HEIGHT). -/
inductive ZUnits
  | zNone
  | zDepth
  | zAltitude
  | zHeight
deriving DecidableEq, Repr

/-- Bottom tracker state-machine states (SM_IDLE, SM_TRACKING, SM_DEPTH,
SM_UNSAFE, SM_AVOIDING); SM_UNSAFE is named `steep` here. -/
inductive MState
  | idle
  | tracking
  | depth
  | steep
  | avoiding
deriving DecidableEq, Repr

/-- Modelled from the spec: the slope-data window (class SlopeData, whose
implementation is not among the sources; the spec describes it as a sliding
average of forward-range samples plus a detected slope angle). Its query
results during one state-machine update are abstracted as a snapshot of
booleans; `depthAtSlope` stands for the value
`m_estate.depth - m_sdata->getFRange() * sin(m_estate.theta)` computed by
dispatchSafeDepth, which involves the external forward range and a sine. -/
structure SlopeOracle where
  surface : Bool
  rangeLow : Bool
  tooSteep : Bool
  slopeIncreasing : Bool
  topCleared : Bool
  depthAtSlope : Rat
deriving DecidableEq, Repr

/-- The subset of IMC::EstimatedState read by the bottom tracker. -/
structure EState where
  alt : Rat
  depth : Rat
  theta : Rat
deriving DecidableEq, Repr

/-- Bottom tracker arguments (Arguments of BottomTracker). -/
structure BTArgs where
  min_alt : Rat
  depth_tol : Rat
  depth_limit : Rat
  alt_tol : Rat
  control_period : Rat
  check_trend : Bool
deriving DecidableEq, Repr

/-- Depth hysteresis constant c_depth_hyst = 0.5. -/
def cDepthHyst : Rat := 1 / 2

/-- Bottom tracker mutable state. `forced_depth` models
m_forced = FC_DEPTH (the only non-NONE forcing reason). -/
structure BTState where
  active : Bool
  mstate : MState
  got_data : Bool
  zref_val : Rat
  zref_units : ZUnits
  forced_depth : Bool
  dspeed : Rat
  valid_alt : Bool
  last_run : Rat
  estate : EState
deriving DecidableEq, Repr

/-- Messages dispatched by the bottom tracker. -/
inductive BTEvent
  | brake (start : Bool)
  | desiredZ (value : Rat) (units : ZUnits)
  | cparcel
deriving DecidableEq, Repr

/-- isAltitudeValid(): latched validity with depth hysteresis; mutates
m_valid_alt, so returns the updated state too. -/
def isAltitudeValid (a : BTArgs) (s : BTState) : Bool × BTState :=
  let v := if s.estate.alt < 0 then false else s.valid_alt
  let v :=
    if s.estate.depth > a.depth_tol then true
    else if s.estate.depth < a.depth_tol - cDepthHyst then false
    else v
  (v, { s with valid_alt := v })

/-- dispatchSafeDepth(): a depth reference at the slope top. -/
def safeDepthEv (a : BTArgs) (o : SlopeOracle) (s : BTState) : BTEvent :=
  if s.zref_units = .zAltitude then
    .desiredZ (max 0 (o.depthAtSlope - s.zref_val)) .zDepth
  else
    .desiredZ (max 0 (o.depthAtSlope - a.alt_tol)) .zDepth

/-- dispatchSameZ(): re-dispatch the upper layer's z reference. -/
def sameZEv (s : BTState) : BTEvent := .desiredZ s.zref_val s.zref_units

/-- onIdle(). -/
def onIdle (a : BTArgs) (s : BTState) : BTState × List BTEvent :=
  if s.zref_units = .zAltitude then
    ({ s with mstate := .tracking, valid_alt := s.estate.depth > a.depth_tol }, [])
  else (s, [])

/-- onTracking(). -/
def onTracking (a : BTArgs) (o : SlopeOracle) (s : BTState) :
    BTState × List BTEvent :=
  if s.zref_units = .zDepth then ({ s with mstate := .idle }, [])
  else
    let va := isAltitudeValid a s
    let s := va.2
    if ¬ va.1 then (s, [])
    else if s.estate.alt < a.min_alt then
      ({ s with mstate := .avoiding }, [BTEvent.brake true])
    else if o.surface then (s, [])
    else if o.rangeLow then
      ({ s with mstate := .avoiding }, [BTEvent.brake true])
    else if o.tooSteep then
      ({ s with mstate := .steep }, [safeDepthEv a o s])
    else if s.estate.depth + s.estate.alt - s.zref_val > a.depth_limit + cDepthHyst then
      ({ s with forced_depth := true, mstate := .depth },
       [BTEvent.desiredZ a.depth_limit .zDepth])
    else (s, [])

/-- onDepth(). -/
def onDepth (a : BTArgs) (o : SlopeOracle) (s : BTState) :
    BTState × List BTEvent :=
  if s.zref_units = .zAltitude ∧ ¬ s.forced_depth then
    ({ s with forced_depth := false, mstate := .tracking }, [sameZEv s])
  else if s.zref_units = .zDepth ∧ s.zref_val < a.depth_limit then
    ({ s with forced_depth := false, mstate := .idle }, [sameZEv s])
  else if o.rangeLow then
    ({ s with forced_depth := false, mstate := .avoiding }, [BTEvent.brake true])
  else if s.forced_depth ∧ s.estate.depth + s.estate.alt - s.zref_val < a.depth_limit then
    ({ s with forced_depth := false, mstate := .tracking }, [sameZEv s])
  else (s, [])

/-- onUnsafe() (state SM_UNSAFE, named `steep`). -/
def onUnsafe (a : BTArgs) (o : SlopeOracle) (s : BTState) :
    BTState × List BTEvent :=
  let away := o.topCleared
  let va := isAltitudeValid a s
  let s := va.2
  if ¬ va.1 then
    if away then ({ s with mstate := .tracking }, [sameZEv s]) else (s, [])
  else if s.estate.alt < a.min_alt ∨ o.rangeLow then
    ({ s with mstate := .avoiding }, [BTEvent.brake true])
  else if o.surface then
    ({ s with mstate := .tracking }, [sameZEv s])
  else if ¬ o.tooSteep then
    if away then ({ s with mstate := .tracking }, [sameZEv s]) else (s, [])
  else if o.slopeIncreasing then
    if a.check_trend ∨ (¬ a.check_trend ∧ s.estate.theta < 0) then
      (s, [safeDepthEv a o s])
    else (s, [])
  else (s, [])

/-- onAvoiding(). The short-circuit of
`isSurface(m_estate) || !isAltitudeValid()` is preserved: the validity latch
is only touched when the echo is not the surface. -/
def onAvoiding (a : BTArgs) (o : SlopeOracle) (s : BTState) :
    BTState × List BTEvent :=
  if o.surface then (s, [])
  else
    let va := isAltitudeValid a s
    let s := va.2
    if ¬ va.1 then (s, [])
    else if ¬ o.tooSteep ∧ s.zref_units = .zAltitude ∧ s.estate.alt ≥ s.zref_val then
      ({ s with mstate := .tracking }, [BTEvent.brake false, sameZEv s])
    else (s, [])

/-- updateStateMachine(). -/
def updateStateMachine (a : BTArgs) (o : SlopeOracle) (s : BTState) :
    BTState × List BTEvent :=
  if ¬ s.active then (s, [])
  else if ¬ s.got_data ∧ (s.zref_units = .zNone ∨ s.dspeed ≤ 0) then (s, [])
  else
    let s := { s with got_data := true }
    match s.mstate with
    | .idle => onIdle a s
    | .tracking => onTracking a o s
    | .depth => onDepth a o s
    | .steep => onUnsafe a o s
    | .avoiding => onAvoiding a o s

/-- onEstimatedState(): stores the state and runs the machine at most once
per control period, dispatching the debug control parcel after a run. -/
def onEstimatedState (a : BTArgs) (s : BTState) (es : EState) (now : Rat)
    (o : SlopeOracle) : BTState × List BTEvent :=
  if ¬ s.active then (s, [])
  else
    let s := { s with estate := es }
    if now - s.last_run > a.control_period then
      let r := updateStateMachine a o s
      ({ r.1 with last_run := now }, r.2 ++ [BTEvent.cparcel])
    else (s, [])

/-- onDesiredZ(msg, outgoing): record the reference; forward it to the bus
unless the machine is interfering (SM_UNSAFE / SM_AVOIDING or forced). -/
def onDesiredZ (s : BTState) (value : Rat) (units : ZUnits) (outgoing : Bool) :
    BTState × List BTEvent :=
  if s.active then
    let s := { s with zref_val := value, zref_units := units }
    let tobus :=
      if outgoing then
        (match s.mstate with
         | .steep => false
         | .avoiding => false
         | _ => true) && !s.forced_depth
      else false
    (s, if tobus then [BTEvent.desiredZ value units] else [])
  else
    (s, if outgoing then [BTEvent.desiredZ value units] else [])

/-- onDesiredSpeed(). -/
def onDesiredSpeed (s : BTState) (v : Rat) : BTState × List BTEvent :=
  if s.active then ({ s with dspeed := v }, []) else (s, [])

/-- reset(). -/
def btReset (s : BTState) (now : Rat) : BTState :=
  { s with mstate := .idle, got_data := false, zref_val := 0,
           zref_units := .zNone, forced_depth := false, dspeed := 0,
           last_run := now }

/-- The tracker's call alphabet (the methods invoked by the owning path
controller). `distance` covers onDistance, which only feeds the external
slope-data window and dispatches nothing. -/
inductive BTInput
  | distance
  | desiredZ (value : Rat) (units : ZUnits) (outgoing : Bool)
  | desiredSpeed (v : Rat)
  | estimated (es : EState) (now : Rat) (o : SlopeOracle)
  | btActivate (now : Rat)
  | btDeactivate
deriving DecidableEq, Repr

/-- One bottom-tracker step. -/
def btStep (a : BTArgs) (s : BTState) : BTInput → BTState × List BTEvent
  | .distance => (s, [])
  | .desiredZ v u outg => onDesiredZ s v u outg
  | .desiredSpeed v => onDesiredSpeed s v
  | .estimated es now o => onEstimatedState a s es now o
  | .btActivate now => (btReset { s with active := true } now, [])
  | .btDeactivate => ({ s with active := false }, [])

/-- Run the bottom tracker over a list of calls. -/
def btRun (a : BTArgs) (s : BTState) : List BTInput → BTState × List BTEvent
  | [] => (s, [])
  | i :: rest =>
    let r1 := btStep a s i
    let r2 := btRun a r1.1 rest
    (r2.1, r1.2 ++ r2.2)

/-- The constructor's state: inactive, then reset() at time `now`. -/
def btInit (now : Rat) : BTState :=
  btReset
    { active := false, mstate := .idle, got_data := false, zref_val := 0,
      zref_units := .zNone, forced_depth := false, dspeed := 0,
      valid_alt := false, last_run := now, estate := ⟨0, 0, 0⟩ } now

/-- The brake flag of a single event, if it is a Brake message. -/
def brakeFlag : BTEvent → Option Bool
  | .brake b => some b
  | _ => Option.none

/-- The flag of the last Brake message in an event list, if any. -/
def lastBrake : List BTEvent → Option Bool
  | [] => Option.none
  | e :: rest =>
    match lastBrake rest with
    | some b => some b
    | Option.none => brakeFlag e


/-! ## Path controller (DUNE::Control::PathController) -/

/-- Modelled from the spec: DesiredPath flag bits FL_START and FL_DIRECT.
The IMC catalog with the numeric values is external to the repository; only
their being distinct bits is used. -/
def FL_START : Nat := 1
def FL_DIRECT : Nat := 2

/-- The three possible sources of the track start point chosen by
consume(IMC::DesiredPath). -/
inductive StartChoice
  | fromMessage
  | fromEstimate
  | fromPrevEnd
deriving DecidableEq, Repr

/-- The start-point selection of consume(IMC::DesiredPath) (the first
if/else-if/else of the handler), as a function of the flags and of the
tracking-state fields it reads. -/
def chooseStart (flags : Nat) (tracking : Bool) (now end_time : Rat)
    (nearby loitering : Bool) : StartChoice :=
  if flags &&& FL_START ≠ 0 then .fromMessage
  else if (tracking = false ∧ now - end_time > 1) ∨
          (nearby = false ∧ loitering = false) ∨
          flags &&& FL_DIRECT ≠ 0 then .fromEstimate
  else .fromPrevEnd

/-- Modelled from the spec's words (claim C5): use the message start when
FL_START is set; otherwise the previous end when the previous path has not
ended (1-second threshold on the end time) and the vehicle is not nearby;
otherwise the current estimate. -/
def chooseStartClaim (flags : Nat) (tracking : Bool) (now end_time : Rat)
    (nearby _loitering : Bool) : StartChoice :=
  if flags &&& FL_START ≠ 0 then .fromMessage
  else if (tracking = true ∨ now - end_time ≤ 1) ∧ nearby = false then .fromPrevEnd
  else .fromEstimate

/-- The start-point rule actually implemented: previous end only when the
previous path has not ended (1-second threshold), the vehicle is nearby or
loitering, and FL_DIRECT is clear; otherwise the current estimate. -/
def chooseStartAmended (flags : Nat) (tracking : Bool) (now end_time : Rat)
    (nearby loitering : Bool) : StartChoice :=
  if flags &&& FL_START ≠ 0 then .fromMessage
  else if (tracking = true ∨ now - end_time ≤ 1) ∧
          (nearby = true ∨ loitering = true) ∧
          flags &&& FL_DIRECT = 0 then .fromPrevEnd
  else .fromEstimate

/-- Time factor c_time_factor = 5 (seconds). -/
noncomputable def cTimeFactor : ℝ := 5

/-- Math::norm(a, b) = sqrt(a*a + b*b). -/
noncomputable def mathNorm (a b : ℝ) : ℝ := Real.sqrt (a * a + b * b)

/-- The ETA / nearby update of updateTrackingState() in the non-loitering
branch: from track_length, track_pos.x, track_pos.y, speed and the current
nearby flag, produce the new (m_ts.eta, m_ts.nearby). -/
noncomputable def etaUpdate (track_length x y speed : ℝ) (nearby : Bool) :
    ℝ × Bool :=
  let errx := |track_length - x|
  let erry := |y|
  let s := max 1 speed
  let eta0 :=
    if errx ≤ erry ∧ erry < 2 * cTimeFactor * s then errx / s
    else mathNorm errx erry / s
  let eta1 := min 65535 (eta0 - cTimeFactor)
  if nearby = false ∧ eta1 ≤ 0 then (0, true) else (eta1, nearby)

/-- Modelled from the spec's words (claim C6): the claimed ETA formula,
before any clamping: errx/s when errx ≤ erry < 2 c s, else hypot(errx,
erry)/s, minus the time factor. -/
noncomputable def claimedEta (track_length x y speed : ℝ) : ℝ :=
  let errx := |track_length - x|
  let erry := |y|
  let s := max 1 speed
  (if errx ≤ erry ∧ erry < 2 * cTimeFactor * s then errx / s
   else Real.sqrt (errx ^ 2 + erry ^ 2) / s) - cTimeFactor

/-- New-reference timeout c_new_ref_timeout = 5 (seconds). -/
def cNewRefTimeout : Rat := 5

/-- The tracking-state fields read and written by the control-flow skeleton
of consume(IMC::EstimatedState). -/
structure TSState where
  tnow : Rat
  delta : Rat
  end_time : Rat
  nearby : Bool
  loitering : Bool
deriving DecidableEq, Repr

/-- Path controller configuration: control period (m_cperiod), state report
period (m_speriod) and whether the bottom tracker is enabled. -/
structure PCCfg where
  cperiod : Rat
  speriod : Rat
  btd_enabled : Bool
  btargs : BTArgs
deriving DecidableEq, Repr

/-- Path controller state for the consume(IMC::EstimatedState) skeleton:
activation, m_error, m_tracking, m_setup, the tracking state, the owned
bottom tracker and m_estate. -/
structure PCState where
  active : Bool
  error : Bool
  tracking : Bool
  setup : Bool
  ts : TSState
  bt : BTState
  last_pcs_report : Rat
  estate : EState
deriving DecidableEq, Repr

/-- Observable effects of the consume(IMC::EstimatedState) skeleton. -/
inductive PCEv
  | entity (ok : Bool) (msg : String)
  | stepCall
  | loiterCall
  | pcsReport
  | fromBT (e : BTEvent)
deriving DecidableEq, Repr

/-- updateEntityState(msg) once m_setup is false: ERROR with the message if
m_error, NORMAL/active otherwise. -/
def updateEntityStateEv (error : Bool) (msg : String) : PCEv :=
  if error then .entity false msg else .entity true "active"

/-- An estimated-state input to the path controller: the wall clock, the
fields forwarded to the bottom tracker and the slope oracle snapshot. -/
structure ESIn where
  now : Rat
  es : EState
  o : SlopeOracle
deriving DecidableEq, Repr

/-- The control-flow skeleton of consume(IMC::EstimatedState): the bottom
tracker runs first, then the setup edge, then the guards, then the
new-reference timeout check, and only then the tracking update, report,
step/loiter and monitors. Everything after the timeout check (the geometry
of updateTrackingState, the report, the subclass step/loiter and the
monitors) is abstracted as `afterGuard`, universally quantified in the
theorems below. -/
def consumeES (afterGuard : PCState → ESIn → PCState × List PCEv)
    (cfg : PCCfg) (s : PCState) (i : ESIn) : PCState × List PCEv :=
  let rbt :=
    if cfg.btd_enabled then onEstimatedState cfg.btargs s.bt i.es i.now i.o
    else (s.bt, [])
  let s := { s with bt := rbt.1 }
  let rsetup :=
    if s.setup then
      ({ s with setup := false }, [updateEntityStateEv s.error ""])
    else (s, [])
  let s := rsetup.1
  let s := { s with estate := i.es }
  let evsPre := (rbt.2.map PCEv.fromBT) ++ rsetup.2
  if s.active = false ∨ s.error = true ∨ s.tracking = false then (s, evsPre)
  else if i.now < s.ts.tnow + cfg.cperiod then (s, evsPre)
  else
    let s := { s with ts :=
      { s.ts with delta := i.now - s.ts.tnow, tnow := i.now } }
    if s.ts.nearby = true ∧ s.ts.tnow - s.ts.end_time ≥ cNewRefTimeout then
      ({ s with error := true },
       evsPre ++ [PCEv.entity false "expected new path control reference"])
    else
      let r := afterGuard s i
      (r.1, evsPre ++ r.2)

/-! ## Control-loop mask bookkeeping (claim C8) -/

/-- One ControlLoops application to the mask, as consume(IMC::ControlLoops)
performs it: OR on enable, AND-NOT on disable. -/
def applyCL (acc : Nat) (p : Bool × Nat) : Nat :=
  if p.1 then acc ||| p.2 else andNot acc p.2

/-- Modelled from the spec's words (claim C8): the union of the masks of the
disable messages of a list. -/
def disablesAfter : List (Bool × Nat) → Nat
  | [] => 0
  | p :: rest => if p.1 then disablesAfter rest else p.2 ||| disablesAfter rest

/-- Modelled from the spec's words (claim C8): the union over the enable
messages of their mask minus the union of the disable masks that arrive
after them. -/
def claimedLoops : List (Bool × Nat) → Nat
  | [] => 0
  | p :: rest =>
    if p.1 then andNot p.2 (disablesAfter rest) ||| claimedLoops rest
    else claimedLoops rest

/-- The enable flag of the last message of the list whose mask mentions bit
b, if any. -/
def lastMention : List (Bool × Nat) → Nat → Option Bool
  | [], _ => Option.none
  | p :: rest, b =>
    match lastMention rest b with
    | some v => some v
    | Option.none => if p.2.testBit b then some p.1 else Option.none

/-- Scope references are nondecreasing along the list, starting from the
given lower bound (so consume(IMC::ControlLoops) discards none of them). -/
def scopesOK : Rat → List CLMsg → Bool
  | _, [] => true
  | lo, m :: rest =>
    if lo ≤ m.scope_ref then scopesOK m.scope_ref rest else false

/-! ## Helper lemmas -/

/-- Bitwise characterization of `andNot`. -/
theorem testBit_andNot (a b i : Nat) :
    (andNot a b).testBit i = (a.testBit i && !(b.testBit i)) := by
  unfold andNot
  rw [Nat.testBit_xor, Nat.testBit_land]
  cases a.testBit i <;> cases b.testBit i <;> rfl

theorem reset_op_mode (s : SupState) : (reset s).1.vs.op_mode = s.vs.op_mode := rfl

theorem reset_error_count (s : SupState) :
    (reset s).1.vs.error_count = s.vs.error_count := rfl

theorem reset_control_loops (s : SupState) : (reset s).1.vs.control_loops = 0 := rfl

theorem reset_scope_ref (s : SupState) : (reset s).1.scope_ref = s.scope_ref := rfl

/-- changeMode leaves the error count, the control loops, the scope
reference and the configuration untouched, and sets the mode to the target
unless the target is SERVICE with entity errors, in which case it sets
ERROR (no redirection happens when the mode already equals the target). -/
theorem changeMode_proj (s : SupState) (t : OpMode) (man : Option ManeuverSpec) :
    (changeMode s t man).1.vs.op_mode
      = (if s.vs.op_mode ≠ t ∧ t = .service ∧ entityError s = true
         then OpMode.error else t)
    ∧ (changeMode s t man).1.vs.error_count = s.vs.error_count
    ∧ (changeMode s t man).1.vs.control_loops = s.vs.control_loops
    ∧ (changeMode s t man).1.scope_ref = s.scope_ref := by
  by_cases hs : t = OpMode.service
  · subst hs
    by_cases he : entityError s = true <;> by_cases h1 : s.vs.op_mode = OpMode.service <;>
      cases man <;> simp_all [changeMode]
  · by_cases h1 : s.vs.op_mode = t <;> by_cases h3 : t = OpMode.maneuver <;>
      cases man <;> simp_all [changeMode]

theorem replyOf_changeMode (s : SupState) (t : OpMode) (man : Option ManeuverSpec) :
    (changeMode s t man).2.filterMap replyOf = [] := by
  cases man <;>
    (simp only [changeMode]
     repeat' split
     all_goals simp [replyOf])

theorem replyOf_reset (s : SupState) : (reset s).2.filterMap replyOf = [] := by
  unfold reset; split_ifs <;> simp [replyOf]

/-! ## Claim C1 -/

/-- Claim C1 counterexample: a VehicleCommand REQUEST whose command field is
4 is consumed by the supervisor but produces no reply at all, so the claim
does not hold for every value of the command field. -/
theorem c1_counterexample :
    ((step (initState 1 [])
        (.vehicleCommand ⟨1, 1, VC_REQUEST, 4, 7, Option.none, 0⟩ 0)).2).filterMap
      replyOf = [] := by decide

/-! ## Claim C2 -/

/-- Claim C2 counterexample: from the initial state, an entity error takes
the supervisor to ERROR; consuming a START_CALIBRATION request then moves
the mode to CALIBRATION although the error count is non-zero and no
non-overridable loops are enabled. -/
theorem c2_counterexample :
    ((runSup (initState 1 [])
        [SupInput.ems ⟨0, 1, "", "IMU", "imu failure", 1⟩]).1.vs.op_mode
      = OpMode.error)
    ∧ ((runSup (initState 1 [])
        [SupInput.ems ⟨0, 1, "", "IMU", "imu failure", 1⟩,
         SupInput.vehicleCommand
           ⟨1, 1, VC_REQUEST, VC_START_CALIBRATION, 11, Option.none, 10⟩ 5]).1.vs.op_mode
      = OpMode.calibration)
    ∧ ((runSup (initState 1 [])
        [SupInput.ems ⟨0, 1, "", "IMU", "imu failure", 1⟩,
         SupInput.vehicleCommand
           ⟨1, 1, VC_REQUEST, VC_START_CALIBRATION, 11, Option.none, 10⟩ 5]).1.vs.error_count
      ≠ 0)
    ∧ nonOverridableLoops (runSup (initState 1 [])
        [SupInput.ems ⟨0, 1, "", "IMU", "imu failure", 1⟩,
         SupInput.vehicleCommand
           ⟨1, 1, VC_REQUEST, VC_START_CALIBRATION, 11, Option.none, 10⟩ 5]).1 = false := by
  decide

/-! ## Claim C3 -/

/-- Claim C3 counterexample: EXEC_MANEUVER takes the initial supervisor to
MANEUVER; START_CALIBRATION then changes the mode directly to CALIBRATION in
a single consume, without passing through SERVICE or ERROR. -/
theorem c3_counterexample :
    ((runSup (initState 1 [])
        [SupInput.vehicleCommand
           ⟨1, 1, VC_REQUEST, VC_EXEC_MANEUVER, 1, some ⟨100, "Loiter", 2⟩, 0⟩ 2]).1.vs.op_mode
      = OpMode.maneuver)
    ∧ ((runSup (initState 1 [])
        [SupInput.vehicleCommand
           ⟨1, 1, VC_REQUEST, VC_EXEC_MANEUVER, 1, some ⟨100, "Loiter", 2⟩, 0⟩ 2,
         SupInput.vehicleCommand
           ⟨1, 1, VC_REQUEST, VC_START_CALIBRATION, 2, Option.none, 10⟩ 3]).1.vs.op_mode
      = OpMode.calibration) := by decide

/-! ## Claim C9 -/

/-- Claim C9 counterexample: STOP_CALIBRATION consumed while not in
CALIBRATION mode is answered with a SUCCESS reply ("cannot stop calibration:
vehicle is not calibrating"), not with a FAILURE reply. -/
theorem c9_counterexample :
    (step (initState 1 [])
        (.vehicleCommand ⟨3, 4, VC_REQUEST, VC_STOP_CALIBRATION, 9, Option.none, 0⟩ 0)).2
      = [SupEvent.vcReply 3 4 VC_SUCCESS VC_STOP_CALIBRATION 9
          "cannot stop calibration: vehicle is not calibrating"]
    ∧ (initState 1 []).vs.op_mode ≠ OpMode.calibration
    ∧ VC_SUCCESS ≠ VC_FAILURE := by decide

/-! ## Claim C10 -/

/-- Claim C10: the read of c_cmd_desc[cmd->command] performed by
consume(IMC::VehicleCommand) before any validation is out of bounds for a
REQUEST with command = 4: nothing in the code bounds the command field,
while the description array has four entries. -/
theorem c10_out_of_bounds :
    ¬ cmdDescIndexOK ⟨1, 1, VC_REQUEST, 4, 7, Option.none, 0⟩
    ∧ c_cmd_desc.length = 4
    ∧ c_cmd_desc.get? 4 = Option.none := by decide

/-! ## Claim C5 -/

/-- Claim C5 counterexample: with FL_START and FL_DIRECT clear, while still
tracking (previous path not ended) and not nearby and not loitering, the
code takes the current estimated position, while the claim prescribes the
previous end point. -/
theorem c5_counterexample :
    chooseStart 0 true 0 0 false false = StartChoice.fromEstimate
    ∧ chooseStartClaim 0 true 0 0 false false = StartChoice.fromPrevEnd
    ∧ StartChoice.fromEstimate ≠ StartChoice.fromPrevEnd := by decide

/-- Claim C5 amended: the start point is the message start when FL_START is
set; otherwise the previous end point exactly when the previous path has not
ended (1-second threshold), the vehicle is nearby or loitering, and
FL_DIRECT is clear; otherwise the current estimated position. -/
theorem c5_start_rule (flags : Nat) (tracking : Bool) (now end_time : Rat)
    (nearby loitering : Bool) :
    chooseStart flags tracking now end_time nearby loitering
      = chooseStartAmended flags tracking now end_time nearby loitering := by
  unfold chooseStart chooseStartAmended
  rcases le_or_lt (now - end_time) 1 with hd | hd <;>
    cases tracking <;> cases nearby <;> cases loitering <;>
    split_ifs with h1 h2 h3 <;>
    simp_all <;> linarith

/-- Claim C1 amended: for every VehicleCommand REQUEST whose command value is
one of the four defined commands (0..3), exactly one reply carrying the same
command and request id is published, and its type is SUCCESS or FAILURE.
(REQUESTs with any other command value produce no reply.) -/
theorem c1_reply (s : SupState) (cmd : VCmd) (now : Rat)
    (hreq : cmd.type = VC_REQUEST) (hcmd : cmd.command ≤ 3) :
    ∃ ty info,
      ((step s (.vehicleCommand cmd now)).2).filterMap replyOf
        = [(ty, cmd.command, cmd.rid, info)]
      ∧ (ty = VC_SUCCESS ∨ ty = VC_FAILURE) := by
  have h : cmd.command = 0 ∨ cmd.command = 1 ∨ cmd.command = 2 ∨ cmd.command = 3 := by
    omega
  rcases h with h | h | h | h
  · rcases hm : cmd.maneuver with _ | m
    · refine ⟨VC_FAILURE, "no maneuver specified", ?_, Or.inr rfl⟩
      simp [step, consumeVehicleCommand, hreq, h, startManeuver, hm, replyOf, answer]
    · by_cases hext : s.vs.op_mode = OpMode.extCtl
      · refine ⟨VC_FAILURE, m.name ++ " maneuver cannot be started in current mode",
          ?_, Or.inr rfl⟩
        simp [step, consumeVehicleCommand, hreq, h, startManeuver, hm, hext,
              replyOf, answer]
      · refine ⟨VC_SUCCESS, m.name ++ " maneuver started", ?_, Or.inl rfl⟩
        simp [step, consumeVehicleCommand, hreq, h, startManeuver, hm, hext,
              replyOf, answer, List.filterMap_append, replyOf_changeMode]
  · refine ⟨VC_SUCCESS, "OK", ?_, Or.inl rfl⟩
    simp only [step, consumeVehicleCommand, hreq, h, stopManeuverCmd]
    split_ifs <;>
      simp_all [List.filterMap_append, replyOf_reset, replyOf_changeMode, replyOf, answer]
  · by_cases hext : s.vs.op_mode = OpMode.extCtl
    · refine ⟨VC_FAILURE, "cannot calibrate: vehicle is in external mode",
        ?_, Or.inr rfl⟩
      simp [step, consumeVehicleCommand, hreq, h, startCalibration, hext,
            replyOf, answer]
    · refine ⟨VC_SUCCESS,
        "calibrating vehicle for " ++ toString cmd.calib_time ++ " seconds",
        ?_, Or.inl rfl⟩
      simp only [step, consumeVehicleCommand, hreq, h, startCalibration, hext]
      split_ifs <;>
        simp_all [List.filterMap_append, replyOf_reset, replyOf_changeMode, replyOf, answer]
  · by_cases hcal : s.vs.op_mode = OpMode.calibration
    · refine ⟨VC_SUCCESS, "stopped calibration", ?_, Or.inl rfl⟩
      simp [step, consumeVehicleCommand, hreq, h, stopCalibration, hcal,
            replyOf, answer, List.filterMap_append, replyOf_changeMode]
    · refine ⟨VC_SUCCESS, "cannot stop calibration: vehicle is not calibrating",
        ?_, Or.inl rfl⟩
      simp [step, consumeVehicleCommand, hreq, h, stopCalibration, hcal,
            replyOf, answer]

/-- Claim C1 witness: the amended reply theorem at a concrete STOP_MANEUVER
request from the initial state. -/
theorem c1_witness :
    (⟨1, 1, VC_REQUEST, 1, 5, Option.none, 0⟩ : VCmd).type = VC_REQUEST
    ∧ (⟨1, 1, VC_REQUEST, 1, 5, Option.none, 0⟩ : VCmd).command ≤ 3
    ∧ ∃ ty info,
        ((step (initState 1 [])
            (.vehicleCommand ⟨1, 1, VC_REQUEST, 1, 5, Option.none, 0⟩ 0)).2).filterMap
          replyOf = [(ty, 1, 5, info)]
        ∧ (ty = VC_SUCCESS ∨ ty = VC_FAILURE) :=
  ⟨rfl, by decide, c1_reply (initState 1 []) ⟨1, 1, VC_REQUEST, 1, 5, Option.none, 0⟩ 0 rfl (by decide)⟩

theorem changeMode_op_mode (s : SupState) (t : OpMode) (man : Option ManeuverSpec) :
    (changeMode s t man).1.vs.op_mode
      = (if s.vs.op_mode ≠ t ∧ t = .service ∧ entityError s = true
         then OpMode.error else t) := (changeMode_proj s t man).1

theorem changeMode_error_count (s : SupState) (t : OpMode) (man : Option ManeuverSpec) :
    (changeMode s t man).1.vs.error_count = s.vs.error_count :=
  (changeMode_proj s t man).2.1

theorem changeMode_control_loops (s : SupState) (t : OpMode) (man : Option ManeuverSpec) :
    (changeMode s t man).1.vs.control_loops = s.vs.control_loops :=
  (changeMode_proj s t man).2.2.1

theorem nonOverridableLoops_changeMode (s : SupState) (t : OpMode) (man : Option ManeuverSpec) :
    nonOverridableLoops (changeMode s t man).1 = nonOverridableLoops s := by
  unfold nonOverridableLoops
  rw [changeMode_control_loops]

/-- onEnabledControlLoops in ERROR mode: EXTERNAL when the loops are
non-overridable, reset otherwise. -/
theorem onEnabled_error (s : SupState) (h : s.vs.op_mode = OpMode.error) :
    onEnabledControlLoops s =
      if nonOverridableLoops s = true then changeMode s .extCtl Option.none
      else reset s := by
  simp [onEnabledControlLoops, h]

/-! ## Claim C2 (amended theorem) -/

/-- Claim C2 amended: in ERROR mode, consuming an input moves the mode away
from ERROR only when the reported error count is zero (to SERVICE), or
non-overridable loops are enabled by an external override (to EXTERNAL), or
the input is a VehicleCommand REQUEST carrying EXEC_MANEUVER or
START_CALIBRATION (which the code does not refuse in ERROR mode). -/
theorem c2_error_exits (s : SupState) (i : SupInput)
    (herr : s.vs.op_mode = OpMode.error)
    (hchg : (step s i).1.vs.op_mode ≠ OpMode.error) :
    ((step s i).1.vs.error_count = 0 ∧ (step s i).1.vs.op_mode = OpMode.service)
    ∨ ((step s i).1.vs.op_mode = OpMode.extCtl
        ∧ nonOverridableLoops (step s i).1 = true)
    ∨ (∃ cmd now, i = SupInput.vehicleCommand cmd now ∧ cmd.type = VC_REQUEST
        ∧ (cmd.command = VC_EXEC_MANEUVER ∨ cmd.command = VC_START_CALIBRATION)) := by
  cases i with
  | abort now => simp [step, consumeAbort, herr] at hchg
  | planControl m =>
      simp only [step, consumePlanControl] at hchg
      split_ifs at hchg <;> simp_all
  | mcs m now =>
      simp only [step, consumeMCS] at hchg
      split_ifs at hchg <;> simp_all
  | tick now =>
      simp only [step, taskTick] at hchg
      split_ifs at hchg <;> simp_all
  | controlLoops m =>
      simp only [step, consumeControlLoops] at hchg ⊢
      split_ifs at hchg ⊢ <;> try simp_all
      all_goals try
        (simp only [onDisabledControlLoops] at hchg
         split_ifs at hchg <;> simp_all)
      all_goals
        (simp only [onEnabledControlLoops] at hchg ⊢
         try simp only [herr] at hchg ⊢
         split_ifs at hchg ⊢ with hno
         · refine Or.inr ⟨?_, ?_⟩
           · rw [changeMode_op_mode]; simp
           · rw [nonOverridableLoops_changeMode]; exact hno
         · rw [reset_op_mode] at hchg; simp_all)
  | ems m =>
      simp only [step, consumeEMS] at hchg ⊢
      split_ifs at hchg ⊢ <;> try simp_all
      all_goals
        (refine Or.inl ⟨?_, ?_⟩
         · rw [changeMode_error_count]
           try simp_all
         · rw [changeMode_op_mode]
           try simp_all [entityError])
  | vehicleCommand cmd now =>
      by_cases htype : cmd.type = VC_REQUEST
      · rcases h4 : cmd.command with _ | _ | _ | _ | n
        · rcases hm : cmd.maneuver with _ | mv
          · simp [step, consumeVehicleCommand, htype, h4, startManeuver, hm, herr] at hchg
          · refine Or.inr (Or.inr ⟨cmd, now, rfl, htype, Or.inl ?_⟩)
            simpa [VC_EXEC_MANEUVER] using h4
        · simp [step, consumeVehicleCommand, htype, h4, stopManeuverCmd, herr] at hchg
        · refine Or.inr (Or.inr ⟨cmd, now, rfl, htype, Or.inr ?_⟩)
          simpa [VC_START_CALIBRATION] using h4
        · simp [step, consumeVehicleCommand, htype, h4, stopCalibration, herr] at hchg
        · simp [step, consumeVehicleCommand, htype, h4, herr] at hchg
      · simp [step, consumeVehicleCommand, htype, herr] at hchg

/-- Claim C2 witness: from a concrete reachable ERROR state, enabling the
teleoperation loop moves the supervisor to EXTERNAL, as one of the permitted
exits of the amended claim. -/
theorem c2_witness :
    (step (runSup (initState 1 [])
        [SupInput.ems ⟨0, 1, "", "IMU", "imu failure", 1⟩]).1
      (SupInput.controlLoops ⟨true, CL_TELEOPERATION, 0⟩)).1.vs.op_mode
      = OpMode.extCtl := by
  rcases c2_error_exits
      (runSup (initState 1 []) [SupInput.ems ⟨0, 1, "", "IMU", "imu failure", 1⟩]).1
      (SupInput.controlLoops ⟨true, CL_TELEOPERATION, 0⟩)
      (by decide) (by decide) with h | h | h
  · exact absurd h.1 (by decide)
  · exact h.1
  · rcases h with ⟨cmd, now, h, _⟩
    simp at h

/-! ## Claim C3 (amended theorem) -/

set_option maxHeartbeats 1600000 in
/-- Claim C3 amended: a direct MANEUVER to CALIBRATION mode change happens
only when consuming a VehicleCommand REQUEST with START_CALIBRATION, and a
direct CALIBRATION to MANEUVER change only when consuming a VehicleCommand
REQUEST with EXEC_MANEUVER; no other input switches the mode directly
between MANEUVER and CALIBRATION. -/
theorem c3_no_direct_switch (s : SupState) (i : SupInput) :
    ((s.vs.op_mode = OpMode.maneuver ∧ (step s i).1.vs.op_mode = OpMode.calibration) →
      ∃ cmd now, i = SupInput.vehicleCommand cmd now ∧ cmd.type = VC_REQUEST
        ∧ cmd.command = VC_START_CALIBRATION)
    ∧ ((s.vs.op_mode = OpMode.calibration ∧ (step s i).1.vs.op_mode = OpMode.maneuver) →
      ∃ cmd now, i = SupInput.vehicleCommand cmd now ∧ cmd.type = VC_REQUEST
        ∧ cmd.command = VC_EXEC_MANEUVER) := by
  cases i with
  | abort now =>
      constructor <;> rintro ⟨hm, hc⟩ <;>
        (simp only [step, consumeAbort] at hc
         split_ifs at hc <;>
           (try simp only [changeMode_op_mode, reset_op_mode] at hc) <;>
           (try split_ifs at hc) <;> simp_all)
  | planControl m =>
      constructor <;> rintro ⟨hm, hc⟩ <;>
        (simp only [step, consumePlanControl] at hc
         split_ifs at hc <;> simp_all)
  | tick now =>
      constructor <;> rintro ⟨hm, hc⟩ <;>
        (simp only [step, taskTick] at hc
         split_ifs at hc <;>
           (try simp only [changeMode_op_mode, reset_op_mode] at hc) <;>
           (try split_ifs at hc) <;> simp_all)
  | mcs m now =>
      constructor <;> rintro ⟨hm, hc⟩ <;>
        (simp only [step, consumeMCS] at hc
         split_ifs at hc <;> try simp_all
         all_goals
           (rcases hst : m.state with _ | _ | _ <;>
              simp only [hst] at hc <;>
              (try simp only [changeMode_op_mode, reset_op_mode] at hc) <;>
              (try split_ifs at hc) <;> simp_all))
  | controlLoops m =>
      constructor <;> rintro ⟨hm, hc⟩ <;>
        (simp only [step, consumeControlLoops] at hc
         split_ifs at hc <;>
           (try simp_all [onEnabledControlLoops, onDisabledControlLoops]) <;>
           (try split_ifs at hc) <;> (try simp_all))
  | ems m =>
      constructor <;> rintro ⟨hm, hc⟩ <;>
        (simp only [step, consumeEMS] at hc
         split_ifs at hc <;>
           (try simp only [changeMode_op_mode, reset_op_mode] at hc) <;>
           (try split_ifs at hc) <;> simp_all)
  | vehicleCommand cmd now =>
      by_cases htype : cmd.type = VC_REQUEST
      · rcases h4 : cmd.command with _ | _ | _ | _ | n
        · constructor <;> rintro ⟨hm, hc⟩
          · rcases hmv : cmd.maneuver with _ | mv <;>
              simp only [step, consumeVehicleCommand, htype, h4, startManeuver, hmv] at hc <;>
              (try split_ifs at hc) <;>
              (try simp only [changeMode_op_mode] at hc) <;>
              (try split_ifs at hc) <;> simp_all
          · exact ⟨cmd, now, rfl, htype, by simpa [VC_EXEC_MANEUVER] using h4⟩
        · constructor <;> rintro ⟨hm, hc⟩ <;>
            (simp only [step, consumeVehicleCommand, htype, h4, stopManeuverCmd] at hc
             split_ifs at hc <;>
               (try simp only [changeMode_op_mode, reset_op_mode] at hc) <;>
               (try split_ifs at hc) <;> simp_all)
        · constructor <;> rintro ⟨hm, hc⟩
          · exact ⟨cmd, now, rfl, htype, by simpa [VC_START_CALIBRATION] using h4⟩
          · simp only [step, consumeVehicleCommand, htype, h4, startCalibration] at hc
            split_ifs at hc <;>
              (try simp only [changeMode_op_mode, reset_op_mode] at hc) <;>
              (try split_ifs at hc) <;> simp_all
        · constructor <;> rintro ⟨hm, hc⟩ <;>
            (simp only [step, consumeVehicleCommand, htype, h4, stopCalibration] at hc
             split_ifs at hc <;>
               (try simp only [changeMode_op_mode] at hc) <;>
               (try split_ifs at hc) <;> simp_all)
        · constructor <;> rintro ⟨hm, hc⟩ <;>
            simp_all [step, consumeVehicleCommand, htype, h4]
      · constructor <;> rintro ⟨hm, hc⟩ <;>
          simp_all [step, consumeVehicleCommand, htype]

/-- Claim C3 witness: the amended theorem applied at the concrete
MANEUVER-mode state with a START_CALIBRATION request. -/
theorem c3_witness :
    ∃ cmd now, SupInput.vehicleCommand
        ⟨1, 1, VC_REQUEST, VC_START_CALIBRATION, 2, Option.none, 10⟩ (3 : Rat)
      = SupInput.vehicleCommand cmd now ∧ cmd.type = VC_REQUEST
      ∧ cmd.command = VC_START_CALIBRATION :=
  (c3_no_direct_switch
      (runSup (initState 1 [])
        [SupInput.vehicleCommand
          ⟨1, 1, VC_REQUEST, VC_EXEC_MANEUVER, 1, some ⟨100, "Loiter", 2⟩, 0⟩ 2]).1
      (SupInput.vehicleCommand
        ⟨1, 1, VC_REQUEST, VC_START_CALIBRATION, 2, Option.none, 10⟩ 3)).1
    ⟨by decide, by decide⟩

/-! ## Claim C8 -/

theorem changeMode_scope_ref (s : SupState) (t : OpMode) (man : Option ManeuverSpec) :
    (changeMode s t man).1.scope_ref = s.scope_ref :=
  (changeMode_proj s t man).2.2.2

theorem entityError_of_count_zero (s : SupState) (h : s.vs.error_count = 0) :
    entityError s = false := by
  simp [entityError, h]

/-- The bitwise view of the control-loop fold. -/
theorem foldl_applyCL_testBit (ps : List (Bool × Nat)) : ∀ (acc b : Nat),
    (ps.foldl applyCL acc).testBit b = (lastMention ps b).getD (acc.testBit b) := by
  induction ps with
  | nil => intro acc b; simp [lastMention]
  | cons p rest ih =>
    intro acc b
    rw [List.foldl_cons, ih]
    cases h : lastMention rest b with
    | some v => simp [lastMention, h]
    | none =>
      simp only [lastMention, h]
      rcases p with ⟨e, mk⟩
      cases e <;> cases hb : mk.testBit b <;>
        simp [applyCL, testBit_andNot, hb, Nat.testBit_or]

/-- A bit not mentioned at all is not in the union of the disable masks. -/
theorem disables_of_lastMention_none (ps : List (Bool × Nat)) (b : Nat) :
    lastMention ps b = Option.none → (disablesAfter ps).testBit b = false := by
  induction ps with
  | nil => intro _; simp [disablesAfter]
  | cons p rest ih =>
    intro h
    simp only [lastMention] at h
    rcases hr : lastMention rest b with _ | v
    · rw [hr] at h
      rcases p with ⟨e, mk⟩
      cases hb : mk.testBit b
      · cases e <;> simp [disablesAfter, ih hr, hb, Nat.testBit_or]
      · simp [hb] at h
    · rw [hr] at h
      simp at h

/-- A bit whose last mention is a disable is in the union of the disable
masks. -/
theorem disables_of_lastMention_false (ps : List (Bool × Nat)) (b : Nat) :
    lastMention ps b = some false → (disablesAfter ps).testBit b = true := by
  induction ps with
  | nil => intro h; simp [lastMention] at h
  | cons p rest ih =>
    intro h
    simp only [lastMention] at h
    rcases hr : lastMention rest b with _ | v
    · rw [hr] at h
      rcases p with ⟨e, mk⟩
      cases hb : mk.testBit b
      · simp [hb] at h
      · simp only [hb, if_true] at h
        cases e
        · simp [disablesAfter, hb, Nat.testBit_or]
        · simp at h
    · rw [hr] at h
      simp only [Option.some.injEq] at h
      subst h
      rcases p with ⟨e, mk⟩
      cases e <;> simp [disablesAfter, ih hr, Nat.testBit_or]

/-- The bitwise view of the specified (claimed) control-loop mask. -/
theorem claimedLoops_testBit (ps : List (Bool × Nat)) (b : Nat) :
    (claimedLoops ps).testBit b = (lastMention ps b).getD false := by
  induction ps with
  | nil => simp [claimedLoops, lastMention]
  | cons p rest ih =>
    rcases p with ⟨e, mk⟩
    rcases hr : lastMention rest b with _ | v
    · have hd := disables_of_lastMention_none rest b hr
      cases e <;> cases hb : mk.testBit b <;>
        simp [claimedLoops, lastMention, hr, ih, hd, hb, testBit_andNot, Nat.testBit_or]
    · cases v
      · have hd := disables_of_lastMention_false rest b hr
        cases e <;>
          simp [claimedLoops, lastMention, hr, ih, hd, testBit_andNot, Nat.testBit_or]
      · cases e <;>
          simp [claimedLoops, lastMention, hr, ih, testBit_andNot, Nat.testBit_or]

/-- The fold computed by the code equals the mask specified by the claim. -/
theorem foldl_applyCL_eq_claimedLoops (ps : List (Bool × Nat)) :
    ps.foldl applyCL 0 = claimedLoops ps := by
  apply Nat.eq_of_testBit_eq
  intro b
  rw [foldl_applyCL_testBit, claimedLoops_testBit, Nat.zero_testBit]

/-- One accepted ControlLoops message applies its mask as a pure fold step
and preserves the zero error count and the non-ERROR mode. -/
theorem consumeCL_invariant (s : SupState) (m : CLMsg)
    (h0 : s.vs.error_count = 0) (h1 : s.vs.op_mode ≠ OpMode.error)
    (h2 : s.scope_ref ≤ m.scope_ref) :
    (consumeControlLoops s m).1.vs.control_loops
        = applyCL s.vs.control_loops (m.enable, m.mask)
    ∧ (consumeControlLoops s m).1.vs.error_count = 0
    ∧ (consumeControlLoops s m).1.vs.op_mode ≠ OpMode.error
    ∧ (consumeControlLoops s m).1.scope_ref = m.scope_ref := by
  have hnl : ¬ m.scope_ref < s.scope_ref := not_lt.mpr h2
  by_cases hen : m.enable = true
  · simp only [consumeControlLoops, hnl, if_false, applyCL, hen, if_true]
    split_ifs with hcb
    · cases hmode : s.vs.op_mode <;>
        simp_all [onEnabledControlLoops, changeMode_op_mode, changeMode_error_count,
                  changeMode_control_loops, changeMode_scope_ref, reset_op_mode,
                  reset_error_count]
    · simp_all
  · have hen' : m.enable = false := by simpa using hen
    simp only [consumeControlLoops, hnl, if_false, applyCL, hen', Bool.false_eq_true]
    split_ifs with hcb
    · cases hmode : s.vs.op_mode <;>
        simp_all [onDisabledControlLoops, changeMode_op_mode, changeMode_error_count,
                  changeMode_control_loops, changeMode_scope_ref,
                  entityError_of_count_zero]
    · simp_all

/-- Running the supervisor over accepted ControlLoops messages folds the
masks with applyCL. -/
theorem runSup_controlLoops (msgs : List CLMsg) : ∀ (s : SupState),
    s.vs.error_count = 0 → s.vs.op_mode ≠ OpMode.error →
    scopesOK s.scope_ref msgs = true →
    (runSup s (msgs.map SupInput.controlLoops)).1.vs.control_loops
      = (msgs.map (fun m => (m.enable, m.mask))).foldl applyCL s.vs.control_loops := by
  induction msgs with
  | nil => intro s _ _ _; rfl
  | cons m rest ih =>
    intro s h0 h1 hsc
    simp only [scopesOK] at hsc
    split_ifs at hsc with hle
    obtain ⟨hl, hc0, hc1, hcs⟩ := consumeCL_invariant s m h0 h1 hle
    simp only [List.map_cons, runSup, step, List.foldl_cons]
    rw [ih _ hc0 hc1 (by rw [hcs]; exact hsc), hl]

/-- Claim C8 counterexample: a disable message with a scope reference lower
than the previously seen one is discarded, so the reported mask keeps the
bit while the claimed union-minus-later-disables value drops it. -/
theorem c8_counterexample :
    (runSup (initState 1 [])
        [SupInput.controlLoops ⟨true, 1, 1⟩,
         SupInput.controlLoops ⟨false, 1, 0⟩]).1.vs.control_loops = 1
    ∧ claimedLoops [(true, 1), (false, 1)] = 0
    ∧ (1 : Nat) ≠ 0 := by decide

/-- Claim C8 amended: for every sequence of ControlLoops messages whose
scope references are nondecreasing (none is discarded as obsolete), the
control_loops mask reported in VehicleState after the run equals the union
of the enable masks minus the disable masks that arrive after them. -/
theorem c8_loop_mask (sid : Nat) (safe : List String) (msgs : List CLMsg)
    (hsc : scopesOK 0 msgs = true) :
    (runSup (initState sid safe) (msgs.map SupInput.controlLoops)).1.vs.control_loops
      = claimedLoops (msgs.map fun m => (m.enable, m.mask)) := by
  have h := runSup_controlLoops msgs (initState sid safe) rfl (by simp [initState]) hsc
  rw [h]
  exact foldl_applyCL_eq_claimedLoops _

/-- Claim C8 witness: the amended theorem at a concrete two-message
sequence (enable mask 5, then disable mask 1 with larger scope). -/
theorem c8_witness :
    scopesOK 0 [(⟨true, 5, 0⟩ : CLMsg), ⟨false, 1, 2⟩] = true
    ∧ (runSup (initState 1 [])
        [SupInput.controlLoops ⟨true, 5, 0⟩,
         SupInput.controlLoops ⟨false, 1, 2⟩]).1.vs.control_loops
      = claimedLoops [(true, 5), (false, 1)] :=
  ⟨by decide, c8_loop_mask 1 [] [⟨true, 5, 0⟩, ⟨false, 1, 2⟩] (by decide)⟩

/-! ## Claim C9 (amended theorem) -/

/-- Claim C9 amended: EXEC_MANEUVER (with an inline maneuver) and
START_CALIBRATION consumed in EXTERNAL mode are refused with a single
FAILURE reply carrying a reason text and leave the supervisor state
unchanged; STOP_CALIBRATION consumed outside CALIBRATION mode leaves the
state unchanged but is answered with a SUCCESS reply carrying an
explanatory text (not a FAILURE). -/
theorem c9_refusals (s : SupState) (cmd : VCmd) (now : Rat)
    (hreq : cmd.type = VC_REQUEST) :
    ((s.vs.op_mode = OpMode.extCtl ∧ cmd.command = VC_START_CALIBRATION) →
      step s (.vehicleCommand cmd now)
        = (s, [SupEvent.vcReply cmd.src cmd.srcEnt VC_FAILURE cmd.command cmd.rid
                "cannot calibrate: vehicle is in external mode"]))
    ∧ (∀ mv : ManeuverSpec,
        (s.vs.op_mode = OpMode.extCtl ∧ cmd.command = VC_EXEC_MANEUVER
          ∧ cmd.maneuver = some mv) →
      step s (.vehicleCommand cmd now)
        = (s, [SupEvent.vcReply cmd.src cmd.srcEnt VC_FAILURE cmd.command cmd.rid
                (mv.name ++ " maneuver cannot be started in current mode")]))
    ∧ ((cmd.command = VC_STOP_CALIBRATION ∧ s.vs.op_mode ≠ OpMode.calibration) →
      step s (.vehicleCommand cmd now)
        = (s, [SupEvent.vcReply cmd.src cmd.srcEnt VC_SUCCESS cmd.command cmd.rid
                "cannot stop calibration: vehicle is not calibrating"])) := by
  refine ⟨?_, ?_, ?_⟩
  · rintro ⟨hext, hc⟩
    simp [step, consumeVehicleCommand, hreq, hc, VC_START_CALIBRATION,
          startCalibration, hext, answer]
  · rintro mv ⟨hext, hc, hmv⟩
    simp [step, consumeVehicleCommand, hreq, hc, VC_EXEC_MANEUVER,
          startManeuver, hmv, hext, answer]
  · rintro ⟨hc, hcal⟩
    simp [step, consumeVehicleCommand, hreq, hc, VC_STOP_CALIBRATION,
          stopCalibration, hcal, answer]

/-- Claim C9 witness: the amended theorem at a concrete EXTERNAL-mode state
with a START_CALIBRATION request. -/
theorem c9_witness :
    step (⟨1, [], -1, false, 0, 0, 0,
            ⟨.extCtl, 65535, -1, 65535, "", 0, 0, "", -1, 0⟩⟩ : SupState)
        (.vehicleCommand ⟨2, 3, VC_REQUEST, VC_START_CALIBRATION, 8, Option.none, 0⟩ 0)
      = (⟨1, [], -1, false, 0, 0, 0,
            ⟨.extCtl, 65535, -1, 65535, "", 0, 0, "", -1, 0⟩⟩,
         [SupEvent.vcReply 2 3 VC_FAILURE VC_START_CALIBRATION 8
            "cannot calibrate: vehicle is in external mode"]) :=
  (c9_refusals
      ⟨1, [], -1, false, 0, 0, 0, ⟨.extCtl, 65535, -1, 65535, "", 0, 0, "", -1, 0⟩⟩
      ⟨2, 3, VC_REQUEST, VC_START_CALIBRATION, 8, Option.none, 0⟩ 0 rfl).1
    ⟨rfl, rfl⟩

/-! ## Claim C4 -/

/-- lastBrake looks at the second list first. -/
theorem lastBrake_append (a b : List BTEvent) :
    lastBrake (a ++ b) = match lastBrake b with
      | some v => some v
      | Option.none => lastBrake a := by
  induction a with
  | nil => cases h : lastBrake b <;> simp [lastBrake, h]
  | cons e rest ih =>
      simp only [List.cons_append, lastBrake, List.append_eq]
      rw [ih]
      cases hb : lastBrake b <;> cases hr : lastBrake rest <;> rfl

set_option maxHeartbeats 1000000 in
/-- onTracking can end in AVOIDING only by dispatching a Brake START. -/
theorem onTracking_avoid (a : BTArgs) (o : SlopeOracle) (s : BTState)
    (hm : s.mstate = MState.tracking)
    (h : (onTracking a o s).1.mstate = MState.avoiding) :
    (onTracking a o s).2 = [BTEvent.brake true] := by
  simp only [onTracking, isAltitudeValid] at h ⊢
  split_ifs at h ⊢ <;> simp_all

set_option maxHeartbeats 1000000 in
/-- onDepth can end in AVOIDING only by dispatching a Brake START. -/
theorem onDepth_avoid (a : BTArgs) (o : SlopeOracle) (s : BTState)
    (hm : s.mstate = MState.depth)
    (h : (onDepth a o s).1.mstate = MState.avoiding) :
    (onDepth a o s).2 = [BTEvent.brake true] := by
  simp only [onDepth] at h ⊢
  split_ifs at h ⊢ <;> simp_all

set_option maxHeartbeats 1000000 in
/-- onUnsafe can end in AVOIDING only by dispatching a Brake START. -/
theorem onUnsafe_avoid (a : BTArgs) (o : SlopeOracle) (s : BTState)
    (hm : s.mstate = MState.steep)
    (h : (onUnsafe a o s).1.mstate = MState.avoiding) :
    (onUnsafe a o s).2 = [BTEvent.brake true] := by
  simp only [onUnsafe, isAltitudeValid] at h ⊢
  split_ifs at h ⊢ <;> simp_all

set_option maxHeartbeats 1000000 in
/-- onAvoiding stays in AVOIDING only without dispatching anything. -/
theorem onAvoiding_stay (a : BTArgs) (o : SlopeOracle) (s : BTState)
    (h : (onAvoiding a o s).1.mstate = MState.avoiding) :
    (onAvoiding a o s).2 = [] := by
  simp only [onAvoiding, isAltitudeValid] at h ⊢
  split_ifs at h ⊢ <;> simp_all

set_option maxHeartbeats 1000000 in
/-- The state-machine dispatcher: ending in AVOIDING means the update just
dispatched Brake START, or dispatched nothing and was already AVOIDING. -/
theorem updateSM_avoiding (a : BTArgs) (o : SlopeOracle) (s : BTState)
    (h : (updateStateMachine a o s).1.mstate = MState.avoiding) :
    lastBrake (updateStateMachine a o s).2 = some true
    ∨ ((updateStateMachine a o s).2 = [] ∧ s.mstate = MState.avoiding) := by
  rcases hm : s.mstate with _ | _ | _ | _ | _
  · simp only [updateStateMachine, hm, onIdle] at h ⊢
    split_ifs at h ⊢ <;> simp_all
  · simp only [updateStateMachine, hm] at h ⊢
    split_ifs at h ⊢ <;> try simp_all
    rw [onTracking_avoid a o _ rfl h]
    rfl
  · simp only [updateStateMachine, hm] at h ⊢
    split_ifs at h ⊢ <;> try simp_all
    rw [onDepth_avoid a o _ rfl h]
    rfl
  · simp only [updateStateMachine, hm] at h ⊢
    split_ifs at h ⊢ <;> try simp_all
    rw [onUnsafe_avoid a o _ rfl h]
    rfl
  · simp only [updateStateMachine, hm] at h ⊢
    split_ifs at h ⊢ <;>
      try (exact Or.inr ⟨rfl, by first | exact hm | trivial⟩)
    exact Or.inr ⟨onAvoiding_stay a o _ h, by first | exact hm | trivial⟩

set_option maxHeartbeats 1000000 in
/-- One bottom-tracker step: if it ends in AVOIDING, either it just
dispatched a Brake START as its last brake message, or it dispatched no
brake message at all and was already in AVOIDING. -/
theorem btStep_avoiding (a : BTArgs) (s : BTState) (i : BTInput)
    (h : (btStep a s i).1.mstate = MState.avoiding) :
    lastBrake (btStep a s i).2 = some true
    ∨ (lastBrake (btStep a s i).2 = Option.none ∧ s.mstate = MState.avoiding) := by
  cases i with
  | distance => exact Or.inr ⟨rfl, h⟩
  | desiredZ v u outg =>
      simp only [btStep, onDesiredZ] at h ⊢
      split_ifs at h ⊢ <;> exact Or.inr ⟨by simp [lastBrake, brakeFlag], by simp_all⟩
  | desiredSpeed v =>
      simp only [btStep, onDesiredSpeed] at h ⊢
      split_ifs at h ⊢ <;> exact Or.inr ⟨rfl, by simp_all⟩
  | btActivate now =>
      simp only [btStep, btReset] at h
      exact absurd h (by simp)
  | btDeactivate => exact Or.inr ⟨rfl, h⟩
  | estimated es now o =>
      simp only [btStep, onEstimatedState] at h ⊢
      split_ifs at h ⊢ <;> try (exact Or.inr ⟨rfl, h⟩)
      rcases updateSM_avoiding a o _ (by simpa using h) with h2 | ⟨h2, h3⟩
      · left
        rw [lastBrake_append]
        exact h2
      · right
        refine ⟨?_, by simpa using h3⟩
        rw [lastBrake_append, h2]
        rfl

/-- A bottom-tracker run ending in AVOIDING either has a Brake START as its
last brake dispatch, or dispatched no brake and started in AVOIDING. -/
theorem btRun_avoiding (a : BTArgs) (inputs : List BTInput) : ∀ (s : BTState),
    (btRun a s inputs).1.mstate = MState.avoiding →
    lastBrake (btRun a s inputs).2 = some true
    ∨ (lastBrake (btRun a s inputs).2 = Option.none ∧ s.mstate = MState.avoiding) := by
  induction inputs with
  | nil => intro s h; exact Or.inr ⟨rfl, h⟩
  | cons i rest ih =>
    intro s h
    simp only [btRun] at h ⊢
    rw [lastBrake_append]
    rcases ih (btStep a s i).1 h with h2 | ⟨h2, h3⟩
    · rw [h2]
      exact Or.inl rfl
    · rw [h2]
      exact btStep_avoiding a s i h3

/-- Claim C4: whenever the bottom-tracker state machine is in AVOIDING after
any sequence of calls from its initial state, a Brake START was dispatched
and no Brake STOP has been dispatched since (the last brake event of the
trace is a START). -/
theorem c4_avoiding_brake (a : BTArgs) (inputs : List BTInput)
    (h : (btRun a (btInit 0) inputs).1.mstate = MState.avoiding) :
    lastBrake (btRun a (btInit 0) inputs).2 = some true := by
  rcases btRun_avoiding a inputs (btInit 0) h with h2 | ⟨h2, h3⟩
  · exact h2
  · exact absurd h3 (by decide)

/-- Claim C4 witness: a concrete activation / altitude-reference / speed /
two-estimates trace that reaches AVOIDING, with the last brake a START. -/
theorem c4_witness :
    ((btRun ⟨1, 1, 10, 1, 1, true⟩ (btInit 0)
        [BTInput.btActivate 0,
         BTInput.desiredZ 3 .zAltitude true,
         BTInput.desiredSpeed 1,
         BTInput.estimated ⟨5, 5, 0⟩ 10 ⟨false, false, false, false, false, 0⟩,
         BTInput.estimated ⟨0, 5, 0⟩ 20 ⟨false, false, false, false, false, 0⟩]).1.mstate
      = MState.avoiding)
    ∧ lastBrake (btRun ⟨1, 1, 10, 1, 1, true⟩ (btInit 0)
        [BTInput.btActivate 0,
         BTInput.desiredZ 3 .zAltitude true,
         BTInput.desiredSpeed 1,
         BTInput.estimated ⟨5, 5, 0⟩ 10 ⟨false, false, false, false, false, 0⟩,
         BTInput.estimated ⟨0, 5, 0⟩ 20 ⟨false, false, false, false, false, 0⟩]).2
      = some true := by
  have e1 : btStep ⟨1, 1, 10, 1, 1, true⟩ (btInit 0) (BTInput.btActivate 0)
      = (⟨true, .idle, false, 0, .zNone, false, 0, false, 0, ⟨0, 0, 0⟩⟩, []) := by
    norm_num [btStep, btReset, btInit]
  have e2 : btStep ⟨1, 1, 10, 1, 1, true⟩
      (⟨true, .idle, false, 0, .zNone, false, 0, false, 0, ⟨0, 0, 0⟩⟩ : BTState)
      (BTInput.desiredZ 3 .zAltitude true)
      = (⟨true, .idle, false, 3, .zAltitude, false, 0, false, 0, ⟨0, 0, 0⟩⟩,
         [BTEvent.desiredZ 3 .zAltitude]) := by
    norm_num [btStep, onDesiredZ]
  have e3 : btStep ⟨1, 1, 10, 1, 1, true⟩
      (⟨true, .idle, false, 3, .zAltitude, false, 0, false, 0, ⟨0, 0, 0⟩⟩ : BTState)
      (BTInput.desiredSpeed 1)
      = (⟨true, .idle, false, 3, .zAltitude, false, 1, false, 0, ⟨0, 0, 0⟩⟩, []) := by
    norm_num [btStep, onDesiredSpeed]
  have e4 : btStep ⟨1, 1, 10, 1, 1, true⟩
      (⟨true, .idle, false, 3, .zAltitude, false, 1, false, 0, ⟨0, 0, 0⟩⟩ : BTState)
      (BTInput.estimated ⟨5, 5, 0⟩ 10 ⟨false, false, false, false, false, 0⟩)
      = (⟨true, .tracking, true, 3, .zAltitude, false, 1, true, 10, ⟨5, 5, 0⟩⟩,
         [BTEvent.cparcel]) := by
    simp [btStep, onEstimatedState, updateStateMachine, onIdle,
          show (10 : Rat) - 0 > 1 by norm_num,
          show ¬((1 : Rat) ≤ 0) by norm_num,
          decide_eq_true (show (5 : Rat) > 1 by norm_num)]
  have e5 : btStep ⟨1, 1, 10, 1, 1, true⟩
      (⟨true, .tracking, true, 3, .zAltitude, false, 1, true, 10, ⟨5, 5, 0⟩⟩ : BTState)
      (BTInput.estimated ⟨0, 5, 0⟩ 20 ⟨false, false, false, false, false, 0⟩)
      = (⟨true, .avoiding, true, 3, .zAltitude, false, 1, true, 20, ⟨0, 5, 0⟩⟩,
         [BTEvent.brake true, BTEvent.cparcel]) := by
    simp [btStep, onEstimatedState, updateStateMachine, onTracking, isAltitudeValid,
          cDepthHyst,
          show (20 : Rat) - 10 > 1 by norm_num,
          show ¬((1 : Rat) ≤ 0) by norm_num,
          show ¬((0 : Rat) < 0) by norm_num,
          show (0 : Rat) < 1 by norm_num,
          show (5 : Rat) > 1 by norm_num]
  have h : (btRun ⟨1, 1, 10, 1, 1, true⟩ (btInit 0)
      [BTInput.btActivate 0,
       BTInput.desiredZ 3 .zAltitude true,
       BTInput.desiredSpeed 1,
       BTInput.estimated ⟨5, 5, 0⟩ 10 ⟨false, false, false, false, false, 0⟩,
       BTInput.estimated ⟨0, 5, 0⟩ 20 ⟨false, false, false, false, false, 0⟩]).1.mstate
      = MState.avoiding := by
    simp [btRun, e1, e2, e3, e4, e5]
  exact ⟨h, c4_avoiding_brake ⟨1, 1, 10, 1, 1, true⟩ _ h⟩

/-! ## Claim C6 -/

/-- Math::norm as a square-root of a sum of squares. -/
theorem mathNorm_eq (a b : ℝ) : mathNorm a b = Real.sqrt (a ^ 2 + b ^ 2) := by
  unfold mathNorm
  ring_nf

/-- Claim C6 counterexample: with the nearby flag already set and the
vehicle at the track end at zero speed, the stored ETA is −5 (the formula
value minus the time factor, with no lower clamp), outside [0, 65535]. -/
theorem c6_counterexample :
    (etaUpdate 0 0 0 0 true).1 = -5 ∧ ¬ (0 ≤ (etaUpdate 0 0 0 0 true).1) := by
  have h : (etaUpdate 0 0 0 0 true).1 = -5 := by
    simp [etaUpdate, cTimeFactor]
    norm_num
  exact ⟨h, by rw [h]; norm_num⟩

/-- Claim C6 amended: the ETA update computes the claimed formula (errx/s in
the short-range case, hypot otherwise, minus the time factor), clamped above
at 65535; it is clamped below at 0 only while the nearby flag is not yet
set — once nearby is set the stored ETA can be negative. -/
theorem c6_eta_clamp (L x y sp : ℝ) (nb : Bool) :
    (etaUpdate L x y sp nb).1
        = (if nb = true then min 65535 (claimedEta L x y sp)
           else max 0 (min 65535 (claimedEta L x y sp)))
    ∧ (etaUpdate L x y sp nb).1 ≤ 65535
    ∧ (nb = false → 0 ≤ (etaUpdate L x y sp nb).1) := by
  cases nb
  · simp only [etaUpdate, claimedEta, mathNorm_eq, Bool.false_eq_true, if_false,
               eq_self_iff_true, true_and, forall_true_left]
    split_ifs with h1 h2 h2 <;>
      refine ⟨?_, ?_, ?_⟩ <;>
        first
          | exact (max_eq_left h2).symm
          | exact (max_eq_right (le_of_lt (not_le.mp h2))).symm
          | exact min_le_left _ _
          | exact le_of_lt (not_le.mp h2)
          | norm_num
  · simp only [etaUpdate, claimedEta, mathNorm_eq, Bool.true_eq_false, false_and,
               if_false, if_true, eq_self_iff_true]
    split_ifs with h1 <;>
      exact ⟨trivial, min_le_left _ _, by simp⟩

/-- Claim C6 witness: the amended theorem at the origin with the nearby
flag not yet set; the stored ETA is clamped to be non-negative there. -/
theorem c6_witness : 0 ≤ (etaUpdate 0 0 0 0 false).1 :=
  (c6_eta_clamp 0 0 0 0 false).2.2 rfl

/-! ## Claim C7 -/

/-- Claim C7: while the nearby flag is set, an EstimatedState processed at
least one control period after the last one and at least c_new_ref_timeout
seconds after the end time (no fresh DesiredPath consumed since the flag
latched) sets m_error and reports entity state ERROR with "expected new
path control reference"; and once m_error is set, every further
EstimatedState leaves the state unchanged (except for storing the estimate)
and produces no tracking references whatsoever — for any behavior
`afterGuard` of the geometry, report, step/loiter and monitor code. -/
theorem c7_new_ref_timeout (afterGuard : PCState → ESIn → PCState × List PCEv)
    (cfg : PCCfg) (s : PCState) (i : ESIn)
    (hbt : cfg.btd_enabled = false) (hsetup : s.setup = false) :
    ((s.active = true ∧ s.error = false ∧ s.tracking = true ∧
      s.ts.tnow + cfg.cperiod ≤ i.now ∧
      s.ts.nearby = true ∧ cNewRefTimeout ≤ i.now - s.ts.end_time) →
      ((consumeES afterGuard cfg s i).1.error = true
       ∧ (consumeES afterGuard cfg s i).2
          = [PCEv.entity false "expected new path control reference"]))
    ∧ (s.error = true →
      ((consumeES afterGuard cfg s i).1 = { s with estate := i.es }
       ∧ (consumeES afterGuard cfg s i).2 = [])) := by
  constructor
  · rintro ⟨ha, he, ht, hrate, hnb, hto⟩
    have hr : ¬ i.now < s.ts.tnow + cfg.cperiod := not_lt.mpr hrate
    simp [consumeES, hbt, hsetup, ha, he, ht, hr, hnb, hto]
  · intro he
    simp [consumeES, hbt, hsetup, he]

/-- Claim C7 witness: the timeout theorem at a concrete nearby state whose
end time is 16 seconds old when the estimate arrives. -/
theorem c7_witness :
    ((consumeES (fun st _ => (st, []))
        ⟨1, 1, false, ⟨1, 1, 10, 1, 1, true⟩⟩
        ⟨true, false, true, false, ⟨0, 0, -10, true, false⟩, btInit 0, 0, ⟨0, 0, 0⟩⟩
        ⟨6, ⟨0, 0, 0⟩, ⟨false, false, false, false, false, 0⟩⟩).1.error = true)
    ∧ ((consumeES (fun st _ => (st, []))
        ⟨1, 1, false, ⟨1, 1, 10, 1, 1, true⟩⟩
        ⟨true, false, true, false, ⟨0, 0, -10, true, false⟩, btInit 0, 0, ⟨0, 0, 0⟩⟩
        ⟨6, ⟨0, 0, 0⟩, ⟨false, false, false, false, false, 0⟩⟩).2
      = [PCEv.entity false "expected new path control reference"]) :=
  (c7_new_ref_timeout (fun st _ => (st, []))
      ⟨1, 1, false, ⟨1, 1, 10, 1, 1, true⟩⟩
      ⟨true, false, true, false, ⟨0, 0, -10, true, false⟩, btInit 0, 0, ⟨0, 0, 0⟩⟩
      ⟨6, ⟨0, 0, 0⟩, ⟨false, false, false, false, false, 0⟩⟩ rfl rfl).1
    ⟨rfl, rfl, rfl, by norm_num, rfl, by norm_num [cNewRefTimeout]⟩
